import Mathlib

/-!
Verification of the differentiation / style-calibration subsystem of the
obi-slv2 repository: a shallow embedding in Lean 4 of the Python modules
`utils/style_calibrator.py`, `utils/communication_controller.py`,
`utils/enhanced_conversation_manager.py` and the `ConversationContext`
data class of `utils/conversation_manager.py`, together with theorems
settling the specification claims about them.

Modelling conventions:
* Python floats (the differentiation level) become rationals; the level
  values occurring in the system are plain decimal numbers.
* Python dicts with a known key set become structures whose fields are
  `Option`-valued when the key may be absent; `dict.get(k, d)` becomes
  `Option.getD`.
* Python truthiness of a dict (non-emptiness) becomes a `pyTruthy`
  predicate on the corresponding structure.
* Raising an exception becomes returning `Except.error`; functions whose
  `try`/`except` body cannot raise for dict-shaped input are total.
-/

namespace ObiSLV2

/-- Substring test on strings: `strContains s pat` is true when `pat`
occurs contiguously in `s` (Python `pat in s`). -/
def strContains (s pat : String) : Bool :=
  s.data.tails.any fun t => pat.data.isPrefixOf t

/-- Round-half-to-even on rationals, matching the rounding Python uses for
the format specifier `:.0f`. -/
def roundHalfEven (q : ℚ) : Int :=
  let f : Int := q.floor
  let twiceFrac : Int := 2 * (q.num - f * (q.den : Int))
  if twiceFrac < (q.den : Int) then f
  else if (q.den : Int) < twiceFrac then f + 1
  else if f % 2 = 0 then f else f + 1

/-- Python `f"{level:.0f}"` for a non-negative level. -/
def formatLevel0f (q : ℚ) : String :=
  toString (roundHalfEven q)

/-- Replace every non-overlapping occurrence of `old` in `s` from the left
(Python `str.replace`), driven by fuel; `fuel = s.length` suffices because
each step consumes at least one character when `old` is non-empty.  The
code only invokes it with non-empty `old` (a guarded preferred name). -/
def pyReplaceAux (old new : List Char) : Nat → List Char → List Char
  | 0, s => s
  | fuel + 1, s =>
    if old ≠ [] ∧ old.isPrefixOf s then
      new ++ pyReplaceAux old new fuel (s.drop old.length)
    else
      match s with
      | [] => []
      | c :: rest => c :: pyReplaceAux old new fuel rest

/-- Python `text.replace(old, new)` for non-empty `old`. -/
def pyReplace (text old new : String) : String :=
  String.mk (pyReplaceAux old.data new.data text.data.length text.data)

/-- Lower-case hexadecimal digit. -/
def hexDigitChar (n : Nat) : Char :=
  if n < 10 then Char.ofNat (48 + n) else Char.ofNat (87 + n)

/-- Rendering of `n` printed as exactly `w` lower-case hex digits (most significant first). -/
def hexPad (n w : Nat) : String :=
  String.mk ((List.range w).map fun i => hexDigitChar (n / 16 ^ (w - 1 - i) % 16))

/-- Model of `str(uuid.uuid4())` for the random draw `n`: the canonical 8-4-4-4-12
lower-case hex rendering, with the version nibble forced to 4 and the
variant bits to 10. -/
def uuid4String (n : Nat) : String :=
  hexPad (n / 2 ^ 96 % 2 ^ 32) 8 ++ "-" ++
  hexPad (n / 2 ^ 80 % 2 ^ 16) 4 ++ "-" ++
  hexPad (16384 + n / 2 ^ 68 % 2 ^ 12) 4 ++ "-" ++
  hexPad (32768 + n / 2 ^ 48 % 2 ^ 14) 4 ++ "-" ++
  hexPad (n % 2 ^ 48) 12

/-!
## StyleCalibrator (`utils/style_calibrator.py`)
-/

/-- The `communication_preferences` sub-dict of a preference payload; each
key may be absent.  Values are integers as stored in the profiles; the
code performs no range validation on them. -/
structure CommunicationPreferences where
  interaction_style : Option Int
  detail_level : Option Int
  rapport_level : Option Int
deriving DecidableEq

/-- The `name_preference` sub-dict. -/
structure NamePreference where
  formality_level : Option String
  title_required : Option Bool
  professional_title : Option String
  preferred_name : Option String
deriving DecidableEq

/-- The `demographics` sub-dict. -/
structure DemographicsPrefs where
  age_category : Option String
  professional_status : Option String
deriving DecidableEq

/-- The `user_preferences` argument of `calibrate_structured_controls`:
a dict in which each of the three sub-dicts may be absent. -/
structure UserPreferences where
  communication_preferences : Option CommunicationPreferences
  name_preference : Option NamePreference
  demographics : Option DemographicsPrefs
deriving DecidableEq

def emptyCommunicationPreferences : CommunicationPreferences := ⟨none, none, none⟩

def emptyNamePreference : NamePreference := ⟨none, none, none, none⟩

def emptyDemographics : DemographicsPrefs := ⟨none, none⟩

def emptyUserPreferences : UserPreferences := ⟨none, none, none⟩

/-- The dict returned by `calibrate_structured_controls`; all eight keys
are always present in it. -/
structure CalibratedControls where
  interaction_style : Int
  detail_level : Int
  rapport_level : Int
  formality_level : String
  title_required : Bool
  professional_title : String
  age_category : String
  professional_status : String
deriving DecidableEq

/-- Model of `StyleCalibrator.SYSTEM_DEFAULTS` (style_calibrator.py lines 21-30). -/
def SYSTEM_DEFAULTS : CalibratedControls :=
  { interaction_style := 3
    detail_level := 3
    rapport_level := 3
    formality_level := "formal"
    title_required := false
    professional_title := ""
    age_category := "adult"
    professional_status := "none" }

/-- State of a `StyleCalibrator` instance: the validated level and the
`_last_calibrated_values` cache (the three numeric values of the most
recent calibration). -/
structure StyleCalibrator where
  differentiation_level : ℚ
  last_calibrated_values : Option (Int × Int × Int)
deriving DecidableEq

/-- Model of `StyleCalibrator.__init__`: rejects a level outside `[0,100]` with
`ValueError` (the `isinstance` check is typed away: the argument is a
number by type). -/
def StyleCalibrator.create (differentiation_level : ℚ) : Except String StyleCalibrator :=
  if 0 ≤ differentiation_level ∧ differentiation_level ≤ 100 then
    .ok ⟨differentiation_level, none⟩
  else
    .error "differentiation_level must be between 0 and 100"

/-- Model of `StyleCalibrator.calibrate_structured_controls` (lines 81-126): raw
preference values are copied through unchanged ("No more value blending -
preferences stay pure"); system defaults fill only the missing keys.  The
differentiation level is not consulted.  Returns the updated calibrator
(with its `_last_calibrated_values` cache set) together with the controls
dict.  The `except` fallback to `SYSTEM_DEFAULTS` at lines 123-126 is
unreachable for dict-shaped input, since the body performs only `get`
accesses with defaults. -/
def StyleCalibrator.calibrate_structured_controls (sc : StyleCalibrator)
    (user_preferences : UserPreferences) : StyleCalibrator × CalibratedControls :=
  let comm := user_preferences.communication_preferences.getD emptyCommunicationPreferences
  let istyle := comm.interaction_style.getD SYSTEM_DEFAULTS.interaction_style
  let dlevel := comm.detail_level.getD SYSTEM_DEFAULTS.detail_level
  let rlevel := comm.rapport_level.getD SYSTEM_DEFAULTS.rapport_level
  let name_prefs := user_preferences.name_preference.getD emptyNamePreference
  let demographics := user_preferences.demographics.getD emptyDemographics
  (⟨sc.differentiation_level, some (istyle, dlevel, rlevel)⟩,
   { interaction_style := istyle
     detail_level := dlevel
     rapport_level := rlevel
     formality_level := name_prefs.formality_level.getD SYSTEM_DEFAULTS.formality_level
     title_required := name_prefs.title_required.getD SYSTEM_DEFAULTS.title_required
     professional_title := name_prefs.professional_title.getD SYSTEM_DEFAULTS.professional_title
     age_category := demographics.age_category.getD SYSTEM_DEFAULTS.age_category
     professional_status := demographics.professional_status.getD SYSTEM_DEFAULTS.professional_status })

/-- The band description used inside `_generate_behavioral_instructions`
(lines 140-144). -/
def levelDescLower (level : ℚ) : String :=
  if level ≤ 30 then "minimal" else if level ≤ 70 then "moderate" else "strict"

/-- The qualitative label for `interaction_style` (line 149). -/
def interactionStyleLabel (v : Int) : String :=
  if v ≤ 2 then "methodical" else if 4 ≤ v then "efficient" else "balanced"

/-- The qualitative label for `detail_level` (line 150). -/
def detailLevelLabel (v : Int) : String :=
  if v ≤ 2 then "maximum" else if 4 ≤ v then "minimal" else "balanced"

/-- The qualitative label for `rapport_level` (line 151). -/
def rapportLevelLabel (v : Int) : String :=
  if v ≤ 2 then "personal" else if 4 ≤ v then "professional" else "balanced"

/-- The formality/title lines appended only when `level > 50`
(style_calibrator.py lines 219-223). -/
def formalityTitleLines (level : ℚ) (controls : CalibratedControls) : List String :=
  if 50 < level then
    (if controls.title_required ∧ controls.professional_title ≠ "" then
      ["• Use title: " ++ controls.professional_title]
     else []) ++
    ["• Maintain " ++ controls.formality_level ++ " tone"]
  else []

/-- Model of `StyleCalibrator._generate_behavioral_instructions` (lines 132-225):
the full instruction text, joined with newlines. -/
def StyleCalibrator.generate_behavioral_instructions (sc : StyleCalibrator)
    (controls : CalibratedControls) : String :=
  let level := sc.differentiation_level
  let level_desc := levelDescLower level
  let instructions : List String :=
    ["Please adjust your communication style:",
     "• Interaction Style: " ++ toString controls.interaction_style ++
       " (" ++ interactionStyleLabel controls.interaction_style ++ ")",
     "• Detail Level: " ++ toString controls.detail_level ++
       " (" ++ detailLevelLabel controls.detail_level ++ ")",
     "• Rapport Level: " ++ toString controls.rapport_level ++
       " (" ++ rapportLevelLabel controls.rapport_level ++ ")",
     "",
     "Apply these preferences with " ++ level_desc ++ " adherence (" ++
       formatLevel0f level ++ "% differentiation level)."]
    ++ ["\nBehavioral Guidance:"]
    ++ (if controls.interaction_style ≤ 2 then
          ["• Break down information into clear steps",
           "• Provide structured, methodical guidance"]
        else if 4 ≤ controls.interaction_style then
          ["• Communicate directly and efficiently",
           "• Focus on key points and actions"]
        else [])
    ++ (if controls.detail_level ≤ 2 then
          ["• Include comprehensive explanations",
           "• Provide relevant background information"]
        else if 4 ≤ controls.detail_level then
          ["• Focus on essential information only",
           "• Keep explanations brief and targeted"]
        else [])
    ++ (if controls.rapport_level ≤ 2 then
          ["• Maintain a warm, personal approach",
           "• Show empathy and understanding"]
        else if 4 ≤ controls.rapport_level then
          ["• Keep tone formal and professional",
           "• Focus on facts and procedures"]
        else [])
    ++ ["\nApplication Guidance:"]
    ++ (if level ≤ 30 then
          ["• Default to standardized responses and procedures",
           "• Consider preferences as minor adjustments only",
           "• Keep responses primarily protocol-focused",
           "• Use personal context only when directly relevant"]
        else if level ≤ 70 then
          ["• Balance standard procedures with preferences",
           "• Incorporate preferences while maintaining protocol",
           "• Adapt responses while staying process-focused",
           "• Use context to enhance understanding when appropriate"]
        else
          ["• Make user preferences your primary guide",
           "• Fully embrace the preferred communication style",
           "• Maintain professionalism while maximizing personalization",
           "• Actively use context to enhance relevance"])
    ++ formalityTitleLines level controls
  String.intercalate "\n" instructions

/-- Model of `StyleCalibrator.generate_style_instructions` (lines 128-130). -/
def StyleCalibrator.generate_style_instructions (sc : StyleCalibrator)
    (controls : CalibratedControls) : String :=
  sc.generate_behavioral_instructions controls


/-!
## CommunicationController (`utils/communication_controller.py`)
-/

/-- State of a `CommunicationController` instance: the validated level and
the `_last_calibrated_values` cache. -/
structure CommunicationController where
  differentiation_level : ℚ
  last_calibrated_values : Option (Int × Int × Int)
deriving DecidableEq

/-- Model of `CommunicationController.__init__` (lines 20-27): rejects a level
outside `[0,100]` with `ValueError`. -/
def CommunicationController.create (differentiation_level : ℚ) :
    Except String CommunicationController :=
  if 0 ≤ differentiation_level ∧ differentiation_level ≤ 100 then
    .ok ⟨differentiation_level, none⟩
  else
    .error "differentiation_level must be between 0 and 100"

/-- Model of `CommunicationController.update_differentiation_level` (lines 34-39). -/
def CommunicationController.update_differentiation_level
    (cc : CommunicationController) (value : ℚ) : Except String CommunicationController :=
  if 0 ≤ value ∧ value ≤ 100 then
    .ok ⟨value, cc.last_calibrated_values⟩
  else
    .error "differentiation_level must be between 0 and 100"

/-- The lines of `CommunicationController.generate_style_instructions`
(lines 53-139); multi-line Python string literals are kept as single list
entries containing newline characters, as in the source. -/
def styleInstructionLines (controls : CalibratedControls) (level : ℚ) : List String :=
  ["Please adjust your communication style:",
   "• Interaction Style: " ++ toString controls.interaction_style,
   "• Detail Level: " ++ toString controls.detail_level,
   "• Rapport Level: " ++ toString controls.rapport_level,
   "\nBehavioral Guidance:"]
  ++ [if controls.interaction_style ≤ 2 then
        "• Provide methodical, step-by-step guidance" ++
        "\n• Break down complex topics into manageable steps"
      else if 4 ≤ controls.interaction_style then
        "• Be efficient and direct" ++
        "\n• Focus on key points without unnecessary elaboration"
      else
        "• Balance step-by-step guidance with efficient delivery" ++
        "\n• Provide clear structure while maintaining conciseness"]
  ++ [if controls.detail_level ≤ 2 then
        "• Provide comprehensive explanations" ++
        "\n• Include relevant background information"
      else if 4 ≤ controls.detail_level then
        "• Keep details minimal and focused" ++
        "\n• Include only essential information"
      else
        "• Maintain balanced detail level" ++
        "\n• Include important context without excess"]
  ++ [if controls.rapport_level ≤ 2 then
        "• Maintain a warm, personal tone" ++
        "\n• Show empathy and acknowledge personal context"
      else if 4 ≤ controls.rapport_level then
        "• Keep tone strictly professional" ++
        "\n• Focus on facts and procedures"
      else
        "• Balance professional and personal elements" ++
        "\n• Show appropriate warmth while maintaining professionalism"]
  ++ ["\nContext Usage:"]
  ++ [if level ≤ 30 then
        "• Reference context only for essential details" ++
        "\n• Focus on standard procedures" ++
        "\n• Maintain formal, protocol-based responses"
      else if level ≤ 70 then
        "• Incorporate context naturally" ++
        "\n• Balance personal details with procedures" ++
        "\n• Adapt responses while maintaining focus"
      else
        "• Fully utilize relevant context" ++
        "\n• Personalize responses appropriately" ++
        "\n• Maintain professional standards"]

/-- Model of `CommunicationController.generate_style_instructions` (lines 41-143):
stores the three numeric control values in `_last_calibrated_values` and
returns the joined instruction text.  The controls dict produced by
calibration always carries the three numeric keys, so the `get(..., 3)`
defaults never fire and the `except` fallback to `""` is unreachable for
the typed argument. -/
def CommunicationController.generate_style_instructions
    (cc : CommunicationController) (controls : CalibratedControls) (level : ℚ) :
    CommunicationController × String :=
  (⟨cc.differentiation_level,
    some (controls.interaction_style, controls.detail_level, controls.rapport_level)⟩,
   String.intercalate "\n" (styleInstructionLines controls level))

/-- Python truthiness of the `name_preference` dict: non-empty. -/
def NamePreference.pyTruthy (np : NamePreference) : Bool :=
  np.formality_level.isSome || np.title_required.isSome ||
  np.professional_title.isSome || np.preferred_name.isSome

/-- Python truthiness of the `demographics` dict: non-empty. -/
def DemographicsPrefs.pyTruthy (d : DemographicsPrefs) : Bool :=
  d.age_category.isSome || d.professional_status.isSome

/-- The `controls` argument of `apply_communication_controls`: only the
`name_preference` and `demographics` keys are consulted by the method. -/
structure ApplyControls where
  name_preference : Option NamePreference
  demographics : Option DemographicsPrefs
deriving DecidableEq

/-- Model of `CommunicationController._apply_name_preferences` (lines 199-221):
prepend the professional title to the preferred name wherever it occurs;
identity when no preferred name is set. -/
def apply_name_preferences (text : String) (name_prefs : NamePreference) : String :=
  let preferred_name := name_prefs.preferred_name.getD ""
  if preferred_name = "" then text
  else if name_prefs.title_required.getD false ∧ name_prefs.professional_title.getD "" ≠ "" then
    pyReplace text preferred_name
      (name_prefs.professional_title.getD "" ++ " " ++ preferred_name)
  else text

/-- Model of `CommunicationController._enhance_clarity` (lines 251-255): declared
hook, body is a no-op in the source. -/
def enhance_clarity (text : String) : String := text

/-- Model of `CommunicationController._simplify_language` (lines 257-261): no-op. -/
def simplify_language (text : String) : String := text

/-- Model of `CommunicationController._optimize_for_professional` (lines 263-267): no-op. -/
def optimize_for_professional (text : String) : String := text

/-- Model of `CommunicationController._enhance_detail` (lines 269-273): no-op. -/
def enhance_detail (text : String) : String := text

/-- Model of `CommunicationController._apply_demographic_adaptations` (lines
223-249): dispatch on lower-cased age category and professional status to
the (no-op) adaptation hooks. -/
def apply_demographic_adaptations (text : String) (demographics : DemographicsPrefs) : String :=
  let age_cat := (demographics.age_category.getD "").toLower
  let prof_status := (demographics.professional_status.getD "").toLower
  let text1 :=
    if age_cat = "senior" then enhance_clarity text
    else if age_cat = "youth" then simplify_language text
    else text
  if prof_status = "active" then optimize_for_professional text1
  else if prof_status = "retired" then enhance_detail text1
  else text1

/-- Model of `CommunicationController.apply_communication_controls` (lines
160-197): regenerates style instructions (whose only lasting effect is the
`_last_calibrated_values` cache; the `controls` dict passed here carries
no numeric style keys, so the cache receives the `get(..., 3)` defaults),
then applies name and demographic substitutions when the respective
sub-dicts are present and non-empty.  The `except` fallback returning the
original response is unreachable for the typed argument. -/
def CommunicationController.apply_communication_controls
    (cc : CommunicationController) (response : String) (controls : ApplyControls) :
    CommunicationController × String :=
  let cc2 : CommunicationController := ⟨cc.differentiation_level, some (3, 3, 3)⟩
  let name_prefs := controls.name_preference.getD emptyNamePreference
  let modified := if name_prefs.pyTruthy then apply_name_preferences response name_prefs
                  else response
  let demographics := controls.demographics.getD emptyDemographics
  let modified := if demographics.pyTruthy then apply_demographic_adaptations modified demographics
                  else modified
  (cc2, modified)

/-!
## EnhancedConversationManager (`utils/enhanced_conversation_manager.py`)
-/

/-- A chat message dict `{role, content}`; also the shape of the synthetic
calibration message. -/
structure ChatMessage where
  role : String
  content : String
deriving DecidableEq

/-- The `metadata` section of a user profile, as read by the calibration
path (`metadata.communication_preferences`). -/
structure ProfileMetadata where
  communication_preferences : Option CommunicationPreferences
deriving DecidableEq

def emptyProfileMetadata : ProfileMetadata := ⟨none⟩

/-- A user profile dict as consumed by the manager.  Only the `metadata`
key is read by the calibration path; `other_keys` records the names of any
further top-level entries (personal, license, ...) solely so that Python
truthiness (dict non-emptiness) is representable. -/
structure UserProfile where
  metadata : Option ProfileMetadata
  other_keys : List String
deriving DecidableEq

/-- Python truthiness of the profile dict: it has at least one key. -/
def UserProfile.pyTruthy (p : UserProfile) : Bool :=
  p.metadata.isSome || !p.other_keys.isEmpty

/-- The empty profile dict `{}` (falsy in Python). -/
def emptyUserProfile : UserProfile := ⟨none, []⟩

/-- Model of `ProjectFolder` (enhanced_conversation_manager.py lines 16-22), less
the `system_prompt` string, which no claim observes. -/
structure ProjectFolder where
  user_profile : UserProfile
  calibrated_controls : CalibratedControls
  latest_calibration_message : Option ChatMessage
deriving DecidableEq

/-- The mutable attributes of an `EnhancedConversationManager` (lines
117-130) that the calibration claims observe.  The `api_key`, the
Anthropic client and the `system_prompt` string are not tracked: no claim
mentions them and the prompt is a pure function of the rest. -/
structure EnhancedConversationManagerState where
  style_calibrator : StyleCalibrator
  communication_controller : CommunicationController
  user_profile : Option UserProfile
  current_project_folder : Option ProjectFolder
  latest_calibration_message : Option ChatMessage
  session_initialized : Bool
deriving DecidableEq

/-- The attribute values set by `EnhancedConversationManager.__init__`
once its two sub-components have validated the level. -/
def initialManagerState (differentiation_level : ℚ) : EnhancedConversationManagerState :=
  { style_calibrator := ⟨differentiation_level, none⟩
    communication_controller := ⟨differentiation_level, none⟩
    user_profile := none
    current_project_folder := none
    latest_calibration_message := none
    session_initialized := false }

/-- Model of `EnhancedConversationManager.__init__` (lines 117-130): constructing
the `StyleCalibrator` (and `CommunicationController`) validates the level
and raises `ValueError` outside `[0,100]`. -/
def EnhancedConversationManagerState.create (differentiation_level : ℚ) :
    Except String EnhancedConversationManagerState := do
  let _ ← StyleCalibrator.create differentiation_level
  let _ ← CommunicationController.create differentiation_level
  .ok (initialManagerState differentiation_level)

/-- Model of `EnhancedConversationManager._get_communication_preferences` (lines
136-149): the empty dict when no (truthy) profile is set, otherwise a dict
with the single key `communication_preferences` holding
the communication preferences found under the metadata key of the
profile, each level defaulting to an empty dict when absent. -/
def EnhancedConversationManagerState.get_communication_preferences
    (s : EnhancedConversationManagerState) : UserPreferences :=
  match s.user_profile with
  | none => emptyUserPreferences
  | some p =>
    if p.pyTruthy then
      { communication_preferences :=
          some ((p.metadata.getD emptyProfileMetadata).communication_preferences.getD
            emptyCommunicationPreferences)
        name_preference := none
        demographics := none }
    else emptyUserPreferences

/-- Model of `EnhancedConversationManager.initialize_session` (lines 151-185):
store the profile as-is, calibrate controls from it, create a fresh
`ProjectFolder` with no calibration message, and mark the session
initialized.  `self.latest_calibration_message` is not touched.  The
`_update_system_prompt` call only rebuilds the untracked prompt string
(recalibrating with identical output along the way). -/
def EnhancedConversationManagerState.initialize_session
    (s : EnhancedConversationManagerState) (user_profile : UserProfile) :
    EnhancedConversationManagerState :=
  let s1 := { s with user_profile := some user_profile }
  let preferences := s1.get_communication_preferences
  let sc_calibrated := s1.style_calibrator.calibrate_structured_controls preferences
  { s1 with
    style_calibrator := sc_calibrated.fst
    current_project_folder :=
      some { user_profile := user_profile
             calibrated_controls := sc_calibrated.snd
             latest_calibration_message := none }
    session_initialized := true }

/-- The calibration message `update_differentiation_level` constructs for
level `level` and profile `p` (lines 204-215): the behavioral instructions
generated by the communication controller from the freshly calibrated
controls, prefixed with the `[COMMUNICATION UPDATE]` marker. -/
def calibrationMessageFor (level : ℚ) (p : UserProfile) : ChatMessage :=
  let preferences : UserPreferences :=
    { communication_preferences :=
        some ((p.metadata.getD emptyProfileMetadata).communication_preferences.getD
          emptyCommunicationPreferences)
      name_preference := none
      demographics := none }
  let controls := (StyleCalibrator.calibrate_structured_controls ⟨level, none⟩ preferences).snd
  { role := "assistant"
    content := "[COMMUNICATION UPDATE] " ++
      String.intercalate "\n" (styleInstructionLines controls level) }

/-- Model of `EnhancedConversationManager.update_differentiation_level` (lines
187-229): replace the style calibrator with a fresh one at the new level
(validating it), update the controller level (validating again), and —
only when the session is initialized and a truthy profile is present —
recalibrate, regenerate instructions, replace `latest_calibration_message`
and rebuild the `ProjectFolder`.  Validation failures propagate (the
`except` clause re-raises). -/
def EnhancedConversationManagerState.update_differentiation_level
    (s : EnhancedConversationManagerState) (value : ℚ) :
    Except String EnhancedConversationManagerState := do
  let sc ← StyleCalibrator.create value
  let cc ← s.communication_controller.update_differentiation_level value
  let s1 := { s with style_calibrator := sc, communication_controller := cc }
  match s1.user_profile with
  | some p =>
    if s1.session_initialized ∧ p.pyTruthy then
      let preferences := s1.get_communication_preferences
      let sc_calibrated := s1.style_calibrator.calibrate_structured_controls preferences
      let cc_instr := s1.communication_controller.generate_style_instructions
        sc_calibrated.snd sc_calibrated.fst.differentiation_level
      let msg : ChatMessage :=
        { role := "assistant", content := "[COMMUNICATION UPDATE] " ++ cc_instr.snd }
      .ok { s1 with
            style_calibrator := sc_calibrated.fst
            communication_controller := cc_instr.fst
            latest_calibration_message := some msg
            current_project_folder :=
              some { user_profile := p
                     calibrated_controls := sc_calibrated.snd
                     latest_calibration_message := some msg } }
    else .ok s1
  | none => .ok s1

/-- Python exceptions raised along the `get_response` path. -/
inductive PyError where
  | runtimeError (msg : String)
  | valueError (msg : String)
  | apiError (msg : String)
deriving DecidableEq

/-- Model of `str(e)` for a modelled exception. -/
def PyError.message : PyError → String
  | .runtimeError m => m
  | .valueError m => m
  | .apiError m => m

/-- The optional `context` dict of `get_response`, holding
`previous_messages` when present. -/
structure GetResponseContext where
  previous_messages : Option (List ChatMessage)
deriving DecidableEq

/-- Model of `EnhancedConversationManager.get_response` (lines 368-437).  The
external LLM call is a parameter (primary and fallback model); it returns
the list of content blocks or an exception.  The method raises
`RuntimeError` when the session is not initialized; an empty content list
raises `ValueError`; a primary-call exception whose text contains
`overloaded_error` triggers one retry against the fallback model; all
other exceptions propagate (the outer `except` re-raises). -/
def EnhancedConversationManagerState.get_response
    (s : EnhancedConversationManagerState)
    (llm llm_fallback : List ChatMessage → Except PyError (List String))
    (message : String) (context : Option GetResponseContext) : Except PyError String :=
  if s.session_initialized = false then
    .error (.runtimeError "Session must be initialized before getting responses")
  else
    let prev := (context.map fun c => c.previous_messages.getD []).getD []
    let messages := prev.filter fun m => m.role = "user" || m.role = "assistant"
    let messages :=
      match s.latest_calibration_message with
      | some lcm =>
        if messages = [] ∨ messages.getLast? ≠ some lcm then messages ++ [lcm] else messages
      | none => messages
    let messages := messages ++ [⟨"user", message⟩]
    let primary : Except PyError String :=
      match llm messages with
      | .ok content =>
        match content.head? with
        | some t => .ok t
        | none => .error (.valueError "Empty response from Anthropic")
      | .error e => .error e
    match primary with
    | .ok t => .ok t
    | .error e =>
      if strContains e.message "overloaded_error" then
        match llm_fallback messages with
        | .ok content =>
          match content.head? with
          | some t => .ok t
          | none => .error (.valueError "Empty response from fallback model")
        | .error e2 => .error e2
      else .error e

/-!
## ConversationContext (`utils/conversation_manager.py` lines 15-40)
-/

/-- Model of `Message` dataclass (conversation_manager.py lines 15-27). -/
structure Message where
  role : String
  content : String
  visible : Bool
deriving DecidableEq

/-- Model of `QueryResult` dataclass (query_engine.py lines 13-17); metadata is an
association list of string pairs. -/
structure QueryResult where
  text : String
  metadata : List (String × String)
  distance : ℚ
deriving DecidableEq

/-- Model of `ConversationContext` dataclass (conversation_manager.py lines 29-40). -/
structure ConversationContext where
  messages : List Message
  last_query_results : Option (List QueryResult)
  system_message_added : Bool
  active_user_profile : Option UserProfile
  thread_id : String
deriving DecidableEq

/-- Construction of a `ConversationContext` followed by `__post_init__`
(lines 37-40): when the caller supplies no `thread_id` (the empty string,
falsy in Python), a fresh UUID string — here rendered from the random draw
`fresh` — is assigned. -/
def mkConversationContext (messages : List Message)
    (last_query_results : Option (List QueryResult)) (system_message_added : Bool)
    (active_user_profile : Option UserProfile) (thread_id : String) (fresh : Nat) :
    ConversationContext :=
  { messages := messages
    last_query_results := last_query_results
    system_message_added := system_message_added
    active_user_profile := active_user_profile
    thread_id := if thread_id = "" then uuid4String fresh else thread_id }

/-!
## Concrete instances used by the scenario claims
-/

/-- The profile preference payload of the end-to-end scenarios:
`communication_preferences = {interaction_style: 1, detail_level: 1, rapport_level: 5}`. -/
def prefs115 : UserPreferences := ⟨some ⟨some 1, some 1, some 5⟩, none, none⟩

/-- The controls calibrated from `prefs115` (level-independent). -/
def controls115 : CalibratedControls :=
  (StyleCalibrator.calibrate_structured_controls ⟨10, none⟩ prefs115).snd

/-- The instruction text generated from `controls115` at level 10. -/
def text10 : String :=
  StyleCalibrator.generate_behavioral_instructions ⟨10, none⟩ controls115

/-- The instruction text generated from `controls115` at level 100. -/
def text100 : String :=
  StyleCalibrator.generate_behavioral_instructions ⟨100, none⟩ controls115

/-- A preference payload whose `interaction_style` is the out-of-band
numeric value 999 (valid values are 1..5). -/
def prefs999 : UserPreferences := ⟨some ⟨some 999, none, none⟩, none, none⟩

/-- A preference payload carrying raw values for all five secondary
fields. -/
def prefsSecondary : UserPreferences :=
  ⟨none, some ⟨some "informal", some true, some "Dr.", none⟩, some ⟨some "senior", some "active"⟩⟩

/-- A truthy user profile whose metadata carries the scenario
communication preferences. -/
def profile1 : UserProfile := ⟨some ⟨some ⟨some 1, some 1, some 5⟩⟩, []⟩

/-- A manager created at the default level 75 with a session initialized
from `profile1`. -/
def session1 : EnhancedConversationManagerState :=
  (initialManagerState 75).initialize_session profile1

/-- A stub for the external LLM call, used only to instantiate theorems
whose conclusion does not depend on the LLM. -/
def llmStub : List ChatMessage → Except PyError (List String) :=
  fun _ => .ok ["ok"]

/-!
## Theorems
-/

theorem hexPad_length (n w : Nat) : (hexPad n w).length = w := by
  simp [hexPad, String.length]

theorem uuid4String_length (n : Nat) : (uuid4String n).length = 36 := by
  simp [uuid4String, String.length_append, hexPad_length]
  rfl

set_option maxRecDepth 200000 in
/-- Claim C1, counterexample: with preferences `{interaction_style: 1,
detail_level: 1, rapport_level: 5}` and a StyleCalibrator constructed at
differentiation level 10, the calibrated controls do NOT equal the system
defaults (the numeric fields keep the raw values) and the instruction text
does not label the controls "balanced" anywhere. -/
theorem claim1_counterexample :
    StyleCalibrator.create 10 = .ok ⟨10, none⟩
    ∧ controls115.interaction_style ≠ SYSTEM_DEFAULTS.interaction_style
    ∧ controls115.detail_level ≠ SYSTEM_DEFAULTS.detail_level
    ∧ controls115.rapport_level ≠ SYSTEM_DEFAULTS.rapport_level
    ∧ strContains text10 "balanced" = false := by
  refine ⟨rfl, by decide, by decide, by decide, ?_⟩
  decide

set_option maxRecDepth 200000 in
/-- Claim C1, amended: at differentiation level 10 the calibrated controls
equal the raw preference values `{1, 1, 5}` (with the secondary fields at
system defaults) — calibration passes preferences through at every level —
and the instruction text labels them "methodical", "maximum" and
"professional", applying them with "minimal adherence". -/
theorem claim1_amended :
    controls115 =
      { interaction_style := 1
        detail_level := 1
        rapport_level := 5
        formality_level := "formal"
        title_required := false
        professional_title := ""
        age_category := "adult"
        professional_status := "none" }
    ∧ strContains text10 "methodical" = true
    ∧ strContains text10 "maximum" = true
    ∧ strContains text10 "professional" = true
    ∧ strContains text10 "minimal adherence" = true := by
  refine ⟨rfl, ?_, ?_, ?_, ?_⟩ <;> decide

set_option maxRecDepth 200000 in
/-- Claim C6: with preferences `{interaction_style: 1, detail_level: 1,
rapport_level: 5}` and a StyleCalibrator constructed at differentiation
level 100, the calibrated controls keep the raw preference values exactly,
and the generated instruction text contains the qualitative labels
"methodical" (interaction style 1) and "professional" (rapport level 5). -/
theorem claim6_strict_band_scenario :
    StyleCalibrator.create 100 = .ok ⟨100, none⟩
    ∧ (StyleCalibrator.calibrate_structured_controls ⟨100, none⟩ prefs115).snd = controls115
    ∧ controls115.interaction_style = 1
    ∧ controls115.detail_level = 1
    ∧ controls115.rapport_level = 5
    ∧ strContains text100 "methodical" = true
    ∧ strContains text100 "professional" = true := by
  refine ⟨rfl, rfl, rfl, rfl, rfl, ?_, ?_⟩ <;> decide

/-- Claim C4, counterexample: at differentiation level 0 — below every
threshold the claim names (50 for formality, 25 for title usage, 30 for
demographics) — the calibrated secondary fields do NOT stay at the system
defaults: they already carry the raw user values. -/
theorem claim4_counterexample :
    StyleCalibrator.create 0 = .ok ⟨0, none⟩
    ∧ (StyleCalibrator.calibrate_structured_controls ⟨0, none⟩ prefsSecondary).snd.formality_level
        ≠ SYSTEM_DEFAULTS.formality_level
    ∧ (StyleCalibrator.calibrate_structured_controls ⟨0, none⟩ prefsSecondary).snd.title_required
        ≠ SYSTEM_DEFAULTS.title_required
    ∧ (StyleCalibrator.calibrate_structured_controls ⟨0, none⟩ prefsSecondary).snd.age_category
        ≠ SYSTEM_DEFAULTS.age_category
    ∧ (StyleCalibrator.calibrate_structured_controls ⟨0, none⟩ prefsSecondary).snd.professional_status
        ≠ SYSTEM_DEFAULTS.professional_status := by
  refine ⟨rfl, ?_, ?_, ?_, ?_⟩ <;> decide

/-- Claim C4, amended: the calibrated secondary fields are not gated by
level thresholds at all — at every differentiation level they take the
raw user value whenever it is present (system defaults fill only missing
keys); the only threshold behavior in the calibrator is that the
instruction text appends the title/formality directives exactly when the
level exceeds 50. -/
theorem claim4_amended (sc : StyleCalibrator) (prefs : UserPreferences)
    (np : NamePreference) (d : DemographicsPrefs) (f : String) (tr : Bool)
    (pt ac ps : String)
    (hnp : prefs.name_preference = some np) (hd : prefs.demographics = some d)
    (hf : np.formality_level = some f) (htr : np.title_required = some tr)
    (hpt : np.professional_title = some pt) (hac : d.age_category = some ac)
    (hps : d.professional_status = some ps) :
    ((sc.calibrate_structured_controls prefs).snd.formality_level = f
     ∧ (sc.calibrate_structured_controls prefs).snd.title_required = tr
     ∧ (sc.calibrate_structured_controls prefs).snd.professional_title = pt
     ∧ (sc.calibrate_structured_controls prefs).snd.age_category = ac
     ∧ (sc.calibrate_structured_controls prefs).snd.professional_status = ps)
    ∧ (sc.differentiation_level ≤ 50 →
        formalityTitleLines sc.differentiation_level (sc.calibrate_structured_controls prefs).snd
          = []) := by
  constructor
  · simp [StyleCalibrator.calibrate_structured_controls, hnp, hd, hf, htr, hpt, hac, hps]
  · intro hle
    have hnot : ¬(50 < sc.differentiation_level) := not_lt.mpr hle
    simp [formalityTitleLines, hnot]

/-- Claim C4, witness: the amended theorem applied to the level-0
calibrator and the concrete secondary-preference payload. -/
theorem claim4_witness :
    (((StyleCalibrator.calibrate_structured_controls ⟨0, none⟩ prefsSecondary).snd.formality_level
        = "informal"
      ∧ (StyleCalibrator.calibrate_structured_controls ⟨0, none⟩ prefsSecondary).snd.title_required
        = true
      ∧ (StyleCalibrator.calibrate_structured_controls ⟨0, none⟩ prefsSecondary).snd.professional_title
        = "Dr."
      ∧ (StyleCalibrator.calibrate_structured_controls ⟨0, none⟩ prefsSecondary).snd.age_category
        = "senior"
      ∧ (StyleCalibrator.calibrate_structured_controls ⟨0, none⟩ prefsSecondary).snd.professional_status
        = "active")
     ∧ ((0 : ℚ) ≤ 50 →
         formalityTitleLines 0 (StyleCalibrator.calibrate_structured_controls ⟨0, none⟩ prefsSecondary).snd
           = [])) :=
  claim4_amended ⟨0, none⟩ prefsSecondary ⟨some "informal", some true, some "Dr.", none⟩
    ⟨some "senior", some "active"⟩ "informal" true "Dr." "senior" "active"
    rfl rfl rfl rfl rfl rfl rfl

/-- Claim C7, counterexample: the out-of-band numeric value 999 supplied
as `interaction_style` does not make calibration fall back to the system
defaults — the corrupt value is propagated unchanged into the calibrated
output. -/
theorem claim7_counterexample :
    (StyleCalibrator.calibrate_structured_controls ⟨50, none⟩ prefs999).snd.interaction_style = 999
    ∧ ¬(1 ≤ (999 : Int) ∧ (999 : Int) ≤ 5)
    ∧ (StyleCalibrator.calibrate_structured_controls ⟨50, none⟩ prefs999).snd ≠ SYSTEM_DEFAULTS := by
  refine ⟨rfl, by decide, by decide⟩

/-- Claim C7, amended: `calibrate_structured_controls` is total (it cannot
raise for a dict-shaped payload) but performs no value validation: any
numeric value present in `communication_preferences` — in-band or not — is
copied into the calibrated output, and the full system defaults are
returned only when the payload carries none of the preference sub-dicts. -/
theorem claim7_amended (sc : StyleCalibrator) (prefs : UserPreferences)
    (comm : CommunicationPreferences) (v : Int) :
    (prefs.communication_preferences = some comm → comm.interaction_style = some v →
      (sc.calibrate_structured_controls prefs).snd.interaction_style = v)
    ∧ (prefs = emptyUserPreferences →
      (sc.calibrate_structured_controls prefs).snd = SYSTEM_DEFAULTS) := by
  constructor
  · intro hc hv
    simp [StyleCalibrator.calibrate_structured_controls, hc, hv]
  · intro he
    subst he
    rfl

/-- Claim C7, witness: the amended theorem applied to the payload carrying
999 and to the empty payload. -/
theorem claim7_witness :
    (StyleCalibrator.calibrate_structured_controls ⟨50, none⟩ prefs999).snd.interaction_style = 999
    ∧ (StyleCalibrator.calibrate_structured_controls ⟨50, none⟩ emptyUserPreferences).snd
        = SYSTEM_DEFAULTS :=
  ⟨(claim7_amended ⟨50, none⟩ prefs999 ⟨some 999, none, none⟩ 999).1 rfl rfl,
   (claim7_amended ⟨50, none⟩ emptyUserPreferences ⟨some 999, none, none⟩ 999).2 rfl⟩

/-- Claim C8: constructing a StyleCalibrator or a CommunicationController
at a level outside `[0,100]`, or updating a CommunicationController to
such a level, raises `ValueError`; inside the range all three succeed and
store exactly the given level. -/
theorem claim8_level_validation (q : ℚ) :
    (¬(0 ≤ q ∧ q ≤ 100) →
      StyleCalibrator.create q = .error "differentiation_level must be between 0 and 100"
      ∧ CommunicationController.create q = .error "differentiation_level must be between 0 and 100"
      ∧ ∀ cc : CommunicationController,
          cc.update_differentiation_level q
            = .error "differentiation_level must be between 0 and 100")
    ∧ ((0 ≤ q ∧ q ≤ 100) →
      StyleCalibrator.create q = .ok ⟨q, none⟩
      ∧ CommunicationController.create q = .ok ⟨q, none⟩
      ∧ ∀ cc : CommunicationController,
          cc.update_differentiation_level q = .ok ⟨q, cc.last_calibrated_values⟩) := by
  constructor <;> intro h <;>
    simp [StyleCalibrator.create, CommunicationController.create,
      CommunicationController.update_differentiation_level, h]

/-- Claim C8, witness: the validation theorem applied at the out-of-range
level 150 and the in-range level 50. -/
theorem claim8_witness :
    StyleCalibrator.create 150 = .error "differentiation_level must be between 0 and 100"
    ∧ CommunicationController.create 50 = .ok ⟨50, none⟩
    ∧ CommunicationController.update_differentiation_level ⟨75, none⟩ 50 = .ok ⟨50, none⟩ :=
  ⟨((claim8_level_validation 150).1 (by norm_num)).1,
   ((claim8_level_validation 50).2 (by norm_num)).2.1,
   ((claim8_level_validation 50).2 (by norm_num)).2.2 ⟨75, none⟩⟩

/-- Claim C9: `apply_communication_controls` is total (the modelled
function cannot raise; the except branch in the source returns the
original text), and when the controls carry no name preference and no
demographics entries it returns the response text unchanged. -/
theorem claim9_identity (cc : CommunicationController) (response : String)
    (controls : ApplyControls)
    (hnp : (controls.name_preference.getD emptyNamePreference).pyTruthy = false)
    (hd : (controls.demographics.getD emptyDemographics).pyTruthy = false) :
    (cc.apply_communication_controls response controls).snd = response := by
  simp [CommunicationController.apply_communication_controls, hnp, hd]

/-- Claim C9, witness: the identity theorem applied to a concrete response
and a controls record with both sub-dicts absent. -/
theorem claim9_witness :
    ((⟨none, none⟩ : ApplyControls).name_preference.getD emptyNamePreference).pyTruthy = false
    ∧ ((⟨none, none⟩ : ApplyControls).demographics.getD emptyDemographics).pyTruthy = false
    ∧ (CommunicationController.apply_communication_controls ⟨75, none⟩ "Hello David, your license expires soon." ⟨none, none⟩).snd
        = "Hello David, your license expires soon." :=
  ⟨rfl, rfl,
   claim9_identity ⟨75, none⟩ "Hello David, your license expires soon." ⟨none, none⟩ rfl rfl⟩

/-- Claim C10: every ConversationContext has a non-empty thread id
immediately after construction — a supplied non-empty id is kept, and an
empty one is replaced by a fresh UUID string during post-initialization. -/
theorem claim10_thread_id_nonempty (messages : List Message)
    (last_query_results : Option (List QueryResult)) (system_message_added : Bool)
    (active_user_profile : Option UserProfile) (thread_id : String) (fresh : Nat) :
    (mkConversationContext messages last_query_results system_message_added
      active_user_profile thread_id fresh).thread_id ≠ "" := by
  by_cases h : thread_id = ""
  · simp only [mkConversationContext, h, if_pos]
    intro he
    have h36 := uuid4String_length fresh
    rw [he] at h36
    simp [String.length] at h36
  · simp [mkConversationContext, h]

/-- Claim C2: `EnhancedConversationManager.get_response` invoked on a
manager whose session is not initialized (no profile has been set) does
not return an apology with a success flag — it raises `RuntimeError`,
regardless of the message, the context and the behavior of the external
LLM. -/
theorem claim2_uninitialized_raises
    (llm llm_fallback : List ChatMessage → Except PyError (List String))
    (message : String) (context : Option GetResponseContext)
    (s : EnhancedConversationManagerState)
    (h : s.session_initialized = false) :
    s.get_response llm llm_fallback message context
      = .error (.runtimeError "Session must be initialized before getting responses") := by
  simp [EnhancedConversationManagerState.get_response, h]

/-- Claim C2, witness: a freshly constructed manager (level 75, no session
initialized) raises on `get_response`, even with an LLM stub that would
answer successfully. -/
theorem claim2_witness :
    (initialManagerState 75).session_initialized = false
    ∧ (initialManagerState 75).get_response llmStub llmStub "Hello?" none
        = .error (.runtimeError "Session must be initialized before getting responses") :=
  ⟨rfl, claim2_uninitialized_raises llmStub llmStub "Hello?" none (initialManagerState 75) rfl⟩

theorem sc_create_ok (v : ℚ) (h : 0 ≤ v ∧ v ≤ 100) :
    StyleCalibrator.create v = .ok ⟨v, none⟩ := by
  simp [StyleCalibrator.create, h]

theorem cc_update_ok (cc : CommunicationController) (v : ℚ) (h : 0 ≤ v ∧ v ≤ 100) :
    cc.update_differentiation_level v = .ok ⟨v, cc.last_calibrated_values⟩ := by
  simp [CommunicationController.update_differentiation_level, h]

/-- Claim C3, counterexample: a session initialized with the empty profile
dict `{}` (which is falsy in Python) is an initialized session, yet after
the two sequential updates to 40 and then 85 its
`latest_calibration_message` is still `None` — not the calibration message
generated for level 85. -/
theorem claim3_counterexample :
    ((((initialManagerState 75).initialize_session emptyUserProfile).update_differentiation_level
          40).bind
        (fun t => t.update_differentiation_level 85)).map
        (fun t => t.latest_calibration_message) = .ok none
    ∧ (none : Option ChatMessage) ≠ some (calibrationMessageFor 85 emptyUserProfile) := by
  exact ⟨rfl, by simp⟩

/-- Claim C3, amended: for every session initialized with a non-empty
(truthy) profile, after `update_differentiation_level(40)` the latest
calibration message is exactly the level-40 message, and after the
subsequent `update_differentiation_level(85)` it is exactly the level-85
message — the level-40 message is fully superseded, and the project
folder copy agrees with it, so one calibration message is latest at each
inspection point. -/
theorem claim3_amended (p : UserProfile) (s : EnhancedConversationManagerState)
    (hpt : p.pyTruthy = true) (hs : s.session_initialized = true)
    (hp : s.user_profile = some p) :
    ((s.update_differentiation_level 40).map (fun t => t.latest_calibration_message)
       = .ok (some (calibrationMessageFor 40 p)))
    ∧ (((s.update_differentiation_level 40).bind
          (fun t => t.update_differentiation_level 85)).map
        (fun t => t.latest_calibration_message)
       = .ok (some (calibrationMessageFor 85 p)))
    ∧ (((s.update_differentiation_level 40).bind
          (fun t => t.update_differentiation_level 85)).map
        (fun t => t.current_project_folder.map (fun f => f.latest_calibration_message))
       = .ok (some (some (calibrationMessageFor 85 p)))) := by
  have e40 := sc_create_ok 40 (by norm_num)
  have e85 := sc_create_ok 85 (by norm_num)
  have c40 := cc_update_ok s.communication_controller 40 (by norm_num)
  refine ⟨?_, ?_, ?_⟩ <;>
    simp [EnhancedConversationManagerState.update_differentiation_level, e40, e85, c40,
      cc_update_ok _ 85 (by norm_num), bind, Except.bind, Except.map, hp, hs, hpt,
      EnhancedConversationManagerState.get_communication_preferences,
      StyleCalibrator.calibrate_structured_controls,
      CommunicationController.generate_style_instructions, calibrationMessageFor]

/-- Claim C3, witness: the amended theorem applied to the session
initialized from the concrete truthy profile. -/
theorem claim3_witness :
    ((session1.update_differentiation_level 40).map (fun t => t.latest_calibration_message)
       = .ok (some (calibrationMessageFor 40 profile1)))
    ∧ (((session1.update_differentiation_level 40).bind
          (fun t => t.update_differentiation_level 85)).map
        (fun t => t.latest_calibration_message)
       = .ok (some (calibrationMessageFor 85 profile1)))
    ∧ (((session1.update_differentiation_level 40).bind
          (fun t => t.update_differentiation_level 85)).map
        (fun t => t.current_project_folder.map (fun f => f.latest_calibration_message))
       = .ok (some (some (calibrationMessageFor 85 profile1)))) :=
  claim3_amended profile1 session1 rfl rfl rfl

set_option maxRecDepth 400000 in
/-- Claim C5, counterexample: no no-op guard exists — on a freshly
initialized session (whose current level is already 75 and whose latest
calibration message is `None`), calling `update_differentiation_level(75)`
with the unchanged level still recalibrates and sets a calibration
message, so `latest_calibration_message` does change. -/
theorem claim5_counterexample :
    session1.style_calibrator.differentiation_level = 75
    ∧ session1.latest_calibration_message = none
    ∧ (session1.update_differentiation_level 75).map (fun t => t.latest_calibration_message)
        = .ok (some (calibrationMessageFor 75 profile1))
    ∧ some (calibrationMessageFor 75 profile1) ≠ (none : Option ChatMessage) := by
  refine ⟨rfl, rfl, ?_, by simp⟩
  rfl

/-- Claim C5, amended: `update_differentiation_level(L)` has no guard
against `L` equaling the current level and always recalibrates; because
calibration is deterministic the operation is idempotent on the session
state — repeating the same update changes nothing further — but a first
call at the current level does set `latest_calibration_message` when none
exists yet. -/
theorem claim5_idempotent (s : EnhancedConversationManagerState) (L : ℚ)
    (h0 : 0 ≤ L) (h1 : L ≤ 100) :
    (s.update_differentiation_level L).bind (fun t => t.update_differentiation_level L)
      = s.update_differentiation_level L := by
  have esc := sc_create_ok L ⟨h0, h1⟩
  cases hup : s.user_profile with
  | none =>
    simp [EnhancedConversationManagerState.update_differentiation_level, esc,
      cc_update_ok _ L ⟨h0, h1⟩, bind, Except.bind, hup]
  | some p =>
    by_cases hsi : s.session_initialized = true
    · by_cases hpt : p.pyTruthy = true
      · simp [EnhancedConversationManagerState.update_differentiation_level, esc,
          cc_update_ok _ L ⟨h0, h1⟩, bind, Except.bind, hup, hsi, hpt,
          EnhancedConversationManagerState.get_communication_preferences,
          StyleCalibrator.calibrate_structured_controls,
          CommunicationController.generate_style_instructions]
      · simp [EnhancedConversationManagerState.update_differentiation_level, esc,
          cc_update_ok _ L ⟨h0, h1⟩, bind, Except.bind, hup, hsi, hpt]
    · simp [EnhancedConversationManagerState.update_differentiation_level, esc,
        cc_update_ok _ L ⟨h0, h1⟩, bind, Except.bind, hup, hsi]

/-- Claim C5, witness: idempotence applied at level 50 on the concrete
initialized session. -/
theorem claim5_witness :
    (0 : ℚ) ≤ 50 ∧ (50 : ℚ) ≤ 100
    ∧ (session1.update_differentiation_level 50).bind
        (fun t => t.update_differentiation_level 50)
      = session1.update_differentiation_level 50 :=
  ⟨by norm_num, by norm_num, claim5_idempotent session1 50 (by norm_num) (by norm_num)⟩

end ObiSLV2
